import Mathlib

/-!
Verification of the pricing core of `quote_calculator.py` (road-haulage quote
calculator).  The Python source is shallowly embedded: every numeric value the
code handles as a Python float is modelled as an exact rational (`ℚ`), strings
as `String`, fallible steps as `Option`/sum types, and the regex fragments the
code uses are implemented as explicit scanners over character lists with the
same leftmost/greedy semantics.  Python `round(x, 2)` is modelled as exact
round-half-to-even at two decimals.  Only ASCII data appears in the tables and
claims, so case mapping is modelled on the ASCII range.
-/

/-- Character class of the regex `\d`. -/
def isDig (c : Char) : Bool := c.isDigit

/-- Character class `[A-Z]` as used case-sensitively (on upper-cased text). -/
def isUp (c : Char) : Bool := 'A' ≤ c && c ≤ 'Z'

/-- Character class `[A-Z]` under `re.IGNORECASE` (ASCII letters). -/
def isLet (c : Char) : Bool := c.isAlpha

/-- Character class `[A-Z\d]` under `re.IGNORECASE`. -/
def isAlnumU (c : Char) : Bool := isLet c || isDig c

/-- Character class of the regex `\s` (ASCII portion). -/
def isWs (c : Char) : Bool :=
  c = ' ' || c = '\t' || c = '\n' || c = '\r' || c = '\x0b' || c = '\x0c'

/-- ASCII upper-casing of one character, as Python `str.upper` acts on ASCII. -/
def upChar (c : Char) : Char :=
  if 'a' ≤ c ∧ c ≤ 'z' then Char.ofNat (c.toNat - 32) else c

/-- ASCII lower-casing of one character, as Python `str.lower` acts on ASCII. -/
def lowChar (c : Char) : Char :=
  if 'A' ≤ c ∧ c ≤ 'Z' then Char.ofNat (c.toNat + 32) else c

/-- Python `str.upper()` on ASCII text. -/
def upperS (s : String) : String := String.mk (s.data.map upChar)

/-- Python `str.lower()` on ASCII text. -/
def lowerS (s : String) : String := String.mk (s.data.map lowChar)

/-- Python `str.strip()`: remove leading and trailing whitespace. -/
def stripS (s : String) : String :=
  String.mk (((s.data.dropWhile isWs).reverse.dropWhile isWs).reverse)

/-- Python `s.startswith(pre)`. -/
def startsW (s pre : String) : Bool := pre.data.isPrefixOf s.data

/-- Python `sub in hay` (substring containment). -/
def strContains (hay sub : String) : Bool :=
  (List.range (hay.data.length + 1)).any
    (fun i => sub.data.isPrefixOf (hay.data.drop i))

/-- Splitting worker with explicit fuel (the fuel is always sufficient since a
nonempty separator consumes at least one character per step). -/
def splitOnAux : Nat → List Char → List Char → List (List Char)
  | 0, _, cs => [cs]
  | fuel + 1, sep, cs =>
    match (List.range (cs.length + 1)).find?
        (fun i => sep.isPrefixOf (cs.drop i)) with
    | none => [cs]
    | some i => cs.take i :: splitOnAux fuel sep (cs.drop (i + sep.length))

/-- Python `s.split(sep)` for a nonempty literal separator. -/
def splitOnS (s sep : String) : List String :=
  if sep.data = [] then [s]
  else (splitOnAux (s.data.length + 1) sep.data s.data).map String.mk

/-- Replacement worker with explicit fuel. -/
def replaceAux : Nat → List Char → List Char → List Char → List Char
  | 0, _, _, cs => cs
  | fuel + 1, pat, rep, cs =>
    match (List.range (cs.length + 1)).find?
        (fun i => pat.isPrefixOf (cs.drop i)) with
    | none => cs
    | some i => cs.take i ++ rep ++ replaceAux fuel pat rep (cs.drop (i + pat.length))

/-- Python `s.replace(pat, rep)` (all non-overlapping occurrences, left to
right) for a nonempty pattern. -/
def replaceAll (s pat rep : String) : String :=
  if pat.data = [] then s
  else String.mk (replaceAux (s.data.length + 1) pat.data rep.data s.data)

/-- First whitespace-separated token of a string, as `s.split()[0]` in Python.
Python raises `IndexError` on a blank string; the embedding returns `""` there
and the theorems that rely on this function assume nonempty table cells. -/
def firstTok (s : String) : String :=
  match (s.data.splitOnP isWs).filter (fun t => t ≠ []) with
  | t :: _ => String.mk t
  | [] => ""

/-- Numeric value of a digit run, as Python `int` on a digit string. -/
def digitsToNat (ds : List Char) : Nat :=
  ds.foldl (fun n c => 10 * n + (c.toNat - 48)) 0

/-- Python `int(s)` restricted to an optionally space-padded digit string;
any other shape raises `ValueError` in Python, modelled as `none`. -/
def parseNat? (s : String) : Option Nat :=
  let t := (stripS s).data
  if t ≠ [] ∧ t.all isDig then some (digitsToNat t) else none

/-- All maximal digit runs of a string as numbers: `re.findall(r'\d+', s)`
followed by `int` on each match. -/
def digitRuns (cs : List Char) : List Nat :=
  let step := fun (acc : List Nat × Option Nat) (c : Char) =>
    if isDig c then (acc.1, some ((acc.2.getD 0) * 10 + (c.toNat - 48)))
    else match acc.2 with
      | some n => (acc.1 ++ [n], none)
      | none => (acc.1, none)
  let r := cs.foldl step ([], none)
  match r.2 with
  | some n => r.1 ++ [n]
  | none => r.1

/-- Rational value of `float(intPart + "." + fracPart)`. -/
def ratOfParts (intPart fracPart : List Char) : ℚ :=
  (digitsToNat intPart : ℚ) + (digitsToNat fracPart : ℚ) / ((10 : ℚ) ^ fracPart.length)

/-- Greedy match of `\d+\.?\d*` at the head of the input, as a rational. -/
def matchNumAt (cs : List Char) : Option ℚ :=
  let d1 := cs.takeWhile isDig
  if d1 = [] then none
  else
    match cs.drop d1.length with
    | '.' :: r2 => some (ratOfParts d1 (r2.takeWhile isDig))
    | _ => some (ratOfParts d1 [])

/-- Leftmost match of `re.search(r'(\d+\.?\d*)', s)` converted with `float`. -/
def findNumQ (s : String) : Option ℚ :=
  (List.range (s.data.length + 1)).findSome? (fun i => matchNumAt (s.data.drop i))

/-- Exact round-half-to-even to an integer, the semantics of Python `round`. -/
def rndHalfEven (x : ℚ) : ℤ :=
  if x - ⌊x⌋ < 1/2 then ⌊x⌋
  else if 1/2 < x - ⌊x⌋ then ⌊x⌋ + 1
  else if ⌊x⌋ % 2 = 0 then ⌊x⌋ else ⌊x⌋ + 1

/-- Python `round(x, 2)` on the exact rational value. -/
def round2 (x : ℚ) : ℚ := (rndHalfEven (x * 100) : ℚ) / 100

example : round2 (11/125) = 9/100 := by with_unfolding_all rfl

example : stripS "  AB1 " = "AB1" := by decide
example : upperS "co7 x" = "CO7 X" := by decide
example : strContains "ND, E" "ND" = true := by decide
example : strContains "ND, E" "Economy" = false := by decide
example : splitOnS "GU26-35" "-" = ["GU26", "35"] := by decide
example : replaceAll "GU261AB" "GU" "" = "261AB" := by decide
example : digitRuns "120 x 80 x 100".data = [120, 80, 100] := by decide
example : findNumQ "13.550 M3" = some (271/20) := by with_unfolding_all rfl
example : firstTok "GU (REST)" = "GU" := by decide

/-!
Data model.  The three CSV datasets are modelled as lists of typed rows; a
numeric CSV cell that Python's `float` would reject is modelled as absent
(the code skips such rows / returns 0 for them), and the literal price cell
"P.O.A" is a distinguished constructor.
-/

/-- Price cell of the pricing table: either the literal "P.O.A" or a number. -/
inductive PriceVal where
  | poa
  | val (q : ℚ)
deriving DecidableEq

/-- Row of `QuoteSheet1.csv` (columns Weight_KG, Zone, Service, Price_GBP). -/
structure PricingRow where
  weightKG : ℚ
  zone : String
  service : String
  priceGBP : PriceVal
deriving DecidableEq

/-- Row of `QuoteSheet2.csv` (columns Postcode_Prefix, Zone, Service_Level). -/
structure ZoneRow where
  pfx : String
  zone : String
  serviceLevel : String
deriving DecidableEq

/-- Row of `QuoteSheet3.csv` (columns Surcharge_Type, Amount_GBP); `none`
models an amount cell `float` cannot parse (the code then charges 0). -/
structure SurchargeRow where
  surchargeType : String
  amountGBP : Option ℚ
deriving DecidableEq

/-- The three loaded datasets held by `RoadHaulageQuoteCalculator`. -/
structure Tables where
  pricing : List PricingRow
  zones : List ZoneRow
  surch : List SurchargeRow
deriving DecidableEq

/-- The `volume_m3` field of the extracted record: JSON null, a string, or a
number (Python passes it around as `None` / `str` / `float`). -/
inductive VolArg where
  | absent
  | vstr (s : String)
  | vnum (q : ℚ)
deriving DecidableEq

/-- The structured record handed to `_calculate_pricing` (produced by the
extraction collaborator).  `quantity` is `Option Nat` because the extractor
produces a nonnegative `int` via `_extract_number` (or a falsy value, which
the gate rejects exactly like an absent one). -/
structure Info where
  fromAddress : String
  toAddress : String
  quantity : Option Nat
  totalWeight : String
  dims : List String
  volumeM3 : VolArg
  serviceType : Option String
  deliveryDate : String
  tailLift : Bool
  moffett : Bool
  deliveryTime : Option String
  labelingRequired : Bool
  awbPrinting : Bool
  adr : Bool
deriving DecidableEq

/-!
PostcodeResolver: `_extract_postcode` (quote_calculator.py lines 152-218).
-/

/-- Match of `\s*\d[A-Z]{2}` (tail of the full-postcode pattern, ignorecase)
at the head of the input: returns the number of characters consumed. -/
def pcTailLen (cs : List Char) : Option Nat :=
  let k := (cs.takeWhile isWs).length
  match cs.drop k with
  | d :: a :: b :: _ => if isDig d && isLet a && isLet b then some (k + 3) else none
  | _ => none

/-- Match of `\d[A-Z\d]?\s*\d[A-Z]{2}` at the head of the input, with the
regex backtracking on the optional character class. -/
def pcAfterLetters (cs : List Char) : Option Nat :=
  match cs with
  | d :: rest =>
    if isDig d then
      match rest with
      | x :: r2 =>
        if isAlnumU x then
          match pcTailLen r2 with
          | some n => some (2 + n)
          | none => (pcTailLen rest).map (1 + ·)
        else (pcTailLen rest).map (1 + ·)
      | [] => none
    else none
  | [] => none

/-- Match of the full UK-postcode pattern
`[A-Z]{1,2}\d[A-Z\d]?\s*\d[A-Z]{2}` (ignorecase) at this position, greedy on
the leading letter count. -/
def pcMatchAt (cs : List Char) : Option Nat :=
  match cs with
  | c1 :: c2 :: rest =>
    if isLet c1 && isLet c2 then
      match pcAfterLetters rest with
      | some n => some (2 + n)
      | none => if isLet c1 then (pcAfterLetters (c2 :: rest)).map (1 + ·) else none
    else if isLet c1 then (pcAfterLetters (c2 :: rest)).map (1 + ·) else none
  | _ => none

/-- First (leftmost) match of the full UK-postcode pattern in the address:
`re.findall(pattern, address, re.IGNORECASE)` followed by `matches[0]`. -/
def findFullPc (address : String) : Option String :=
  let cs := address.data
  (List.range (cs.length + 1)).findSome? fun i =>
    (pcMatchAt (cs.drop i)).map fun n => String.mk ((cs.drop i).take n)

/-- Anchored match of the bare-prefix pattern `^[A-Z]{1,2}\d{1,2}[A-Z]?$`
(line 167), by exhausting the eight letter/digit/optional-letter shapes. -/
def isBareP (s : String) : Bool :=
  let cs := s.data
  [(1,1,0),(1,1,1),(1,2,0),(1,2,1),(2,1,0),(2,1,1),(2,2,0),(2,2,1)].any
    fun t =>
      cs.length = t.1 + t.2.1 + t.2.2
      && (cs.take t.1).all isUp
      && ((cs.drop t.1).take t.2.1).all isDig
      && ((cs.drop (t.1 + t.2.1)).take t.2.2).all isUp

/-- The fixed sample-postcode table of lines 174-179, in insertion order. -/
def samplePcs : List (String × String) :=
  [("CO7", "CO7 7AB"), ("CO", "CO1 1AB"), ("B", "B1 1AB"),
   ("BHX", "B26 3QJ"), ("BH", "BH1 1AB"), ("AB", "AB1 1AB")]

/-- Result of the inner sample-postcode loop (lines 180-183): the first table
entry whose key the bare prefix starts with, else prefix + " 1AB". -/
def samplePick (addrU : String) : String :=
  match samplePcs.find? (fun p => startsW addrU p.1) with
  | some p => p.2
  | none => addrU ++ " 1AB"

/-- The per-row guard of the bare-prefix loop (line 172): the address starts
with the first token of the row's prefix, or the row's prefix starts with the
address. -/
def bareRowMatch (addrU : String) (r : ZoneRow) : Bool :=
  let zp := upperS (stripS r.pfx)
  startsW addrU (firstTok zp) || startsW zp addrU

/-- Airport-code table of lines 186-195, in insertion order. -/
def airportMap : List (String × String) :=
  [("BHX", "B26 3QJ"), ("LHR", "TW6 1EW"), ("LGW", "RH6 0NP"),
   ("MAN", "M90 1QX"), ("STN", "CM24 1RW"), ("EDI", "EH12 9DN"),
   ("GLA", "PA3 2SW"), ("CO7", "CO7 7AB")]

/-- Location-name table of lines 202-212, in insertion order. -/
def locationMap : List (String × String) :=
  [("BIRMINGHAM AIRPORT", "B26 3QJ"), ("HEATHROW AIRPORT", "TW6 1EW"),
   ("GATWICK AIRPORT", "RH6 0NP"), ("MANCHESTER AIRPORT", "M90 1QX"),
   ("STANSTED AIRPORT", "CM24 1RW"), ("EDINBURGH AIRPORT", "EH12 9DN"),
   ("GLASGOW AIRPORT", "PA3 2SW"), ("COLCHESTER", "CO1 1AB")]

/-- Steps 3 and 4 of the resolver (lines 197-216): scan for an airport code
contained in the address, then for a known location name. -/
def airportScan (addrU : String) : Option String :=
  match airportMap.find? (fun p => strContains addrU p.1) with
  | some p => some p.2
  | none =>
    match locationMap.find? (fun p => strContains addrU p.1) with
    | some p => some p.2
    | none => none

/-- The resolver `_extract_postcode(address)` (lines 152-218).  The bare-prefix
branch returns only when some zone row passes `bareRowMatch`; otherwise the
code falls through to the airport/location scans. -/
def extractPostcode (zones : List ZoneRow) (address : String) : Option String :=
  if address = "" then none
  else
    match findFullPc address with
    | some m => some m
    | none =>
      let addrU := stripS (upperS address)
      if isBareP addrU then
        match zones.find? (bareRowMatch addrU) with
        | some _ => some (samplePick addrU)
        | none => airportScan addrU
      else airportScan addrU

example : findFullPc "AB1 2CD" = some "AB1 2CD" := by decide
example : findFullPc "Collection from co7 please" = none := by decide
example : findFullPc "unit 4, b26 3qj today" = some "b26 3qj" := by decide
example : isBareP "CO7" = true := by decide
example : isBareP "AB12C" = true := by decide
example : isBareP "ABC" = false := by decide
example : extractPostcode [⟨"CO7-10", "2", "ND"⟩] "co7" = some "CO7 7AB" := by decide
example : extractPostcode [] "ZZ9" = none := by decide
example : extractPostcode [] "HEATHROW AIRPORT cargo" = some "TW6 1EW" := by decide

/-!
ZoneResolver: `_find_zone_by_postcode` (quote_calculator.py lines 220-289).
-/

/-- First maximal digit run of a string as a number:
`re.search(r'\d+', s)` followed by `int` — `none` when no digit occurs. -/
def firstDigitRun (s : String) : Option Nat :=
  match (s.data.dropWhile (fun c => !isDig c)).takeWhile isDig with
  | [] => none
  | ds => some (digitsToNat ds)

/-- Per-row matching of `_find_zone_by_postcode`'s loop body (lines 235-286),
applied to the cleaned postcode and its extracted letter prefix.  The row
classes are checked in the source's `if/elif` order: rows whose prefix cell
contains "-" or "+" first, then exact-prefix rows, then "(REST)" rows.  Any
exception inside the try-blocks is `continue` in the source, i.e. `none`
here.  Note that for a ranged cell like "GU26-35" the source computes
`range_part = cell.split('-')[1]` ("35"), which can never itself contain
"-", so the `range_start <= n <= range_end` branch is unreachable and only
`n == int(range_part)` can fire; the embedding mirrors this. -/
def zoneRowMatch (clean pfx : String) (r : ZoneRow) : Option (String × String) :=
  let zp := upperS (stripS r.pfx)
  if strContains zp "-" || strContains zp "+" then
    let basePart := if strContains zp " " then firstTok zp else zp
    let base := String.mk (basePart.data.takeWhile isUp)
    if base ≠ "" ∧ startsW pfx base then
      if strContains zp "-" then
        match (splitOnS zp "-").get? 1 with
        | none => none
        | some rangePart =>
          match firstDigitRun (replaceAll clean base "") with
          | none => none
          | some pn =>
            if strContains rangePart "-" then
              match splitOnS rangePart "-" with
              | [a, b] =>
                match parseNat? a, parseNat? b with
                | some ra, some rb =>
                  if ra ≤ pn ∧ pn ≤ rb then some (r.zone, r.serviceLevel) else none
                | _, _ => none
              | _ => none
            else
              match parseNat? rangePart with
              | some v => if pn = v then some (r.zone, r.serviceLevel) else none
              | none => none
      else
        match parseNat? (replaceAll ((splitOnS zp "+").headD "") base "") with
        | some minN =>
          match firstDigitRun (replaceAll clean base "") with
          | some pn => if minN ≤ pn then some (r.zone, r.serviceLevel) else none
          | none => none
        | none => none
    else none
  else if pfx = zp then some (r.zone, r.serviceLevel)
  else if strContains zp " " && strContains zp "(" then
    if pfx = firstTok zp then some (r.zone, r.serviceLevel) else none
  else none

/-- The resolver `_find_zone_by_postcode(postcode)` (lines 220-289):
normalize, extract the leading 1-2 letter prefix, and return the first
matching row's (zone, service-level) pair. -/
def findZone (zones : List ZoneRow) (postcode : String) : Option (String × String) :=
  if postcode = "" then none
  else
    let clean := String.mk ((upperS postcode).data.filter (fun c => c ≠ ' '))
    let letters := (clean.data.takeWhile isUp).take 2
    if letters = [] then none
    else zones.findSome? (zoneRowMatch clean (String.mk letters))

example : findZone [⟨"AB", "1", "ND, E"⟩] "AB1 2CD" = some ("1", "ND, E") := by decide
example : findZone [⟨"GU (REST)", "4", "ND"⟩] "GU30 7AA" = some ("4", "ND") := by decide
example : findZone [⟨"PA20+", "7", "ND"⟩] "PA25" = some ("7", "ND") := by decide
example : findZone [⟨"PA20+", "7", "ND"⟩] "PA19" = none := by decide
example : findZone [⟨"GU26-35", "3", "ND"⟩] "GU35" = some ("3", "ND") := by decide
example : findZone [⟨"GU26-35", "3", "ND"⟩] "GU26" = none := by decide

/-!
Weight parsing: `_parse_weight` (lines 291-308).
-/

/-- Match of `(\d+\.?\d*)\s*(kg|kgs|kilogram)` at the head of the input: the
number is greedy (first with the optional dot and trailing digits, then
without), and each candidate endpoint must be followed by optional whitespace
and one of the unit alternatives. -/
def matchNumUnit (cs : List Char) : Option ℚ :=
  let d1 := cs.takeWhile isDig
  if d1 = [] then none
  else
    let unitAt := fun (r : List Char) =>
      let r2 := r.dropWhile isWs
      "kg".data.isPrefixOf r2 || "kgs".data.isPrefixOf r2 ||
        "kilogram".data.isPrefixOf r2
    let dotCase :=
      match cs.drop d1.length with
      | '.' :: r2 =>
        let d2 := r2.takeWhile isDig
        if unitAt (r2.drop d2.length) then some (ratOfParts d1 d2) else none
      | _ => none
    match dotCase with
    | some q => some q
    | none => if unitAt (cs.drop d1.length) then some (ratOfParts d1 []) else none

/-- All start indices at which `pat` occurs in `cs`. -/
def occIdx (cs pat : List Char) : List Nat :=
  (List.range (cs.length + 1)).filter (fun i => pat.isPrefixOf (cs.drop i))

/-- Search of `total.*?weight.*?(\d+\.?\d*)\s*(kg|kgs|kilogram)` in engine
order: each occurrence of "total" from the left, then each later occurrence
of "weight", then the leftmost number-with-unit after it. -/
def twSearch (s : String) : Option ℚ :=
  let cs := s.data
  (occIdx cs "total".data).findSome? fun t =>
    ((occIdx cs "weight".data).filter (fun w2 => t + 5 ≤ w2)).findSome? fun w2 =>
      ((List.range (cs.length + 1)).filter (fun i => w2 + 6 ≤ i)).findSome?
        fun i => matchNumUnit (cs.drop i)

/-- The parser `_parse_weight(weight_str)` (lines 291-308): empty input is 0;
otherwise lower-case and try the total-weight pattern, then fall back to the
first bare number, then 0. -/
def parseWeight (ws : String) : ℚ :=
  if ws = "" then 0
  else
    let l := lowerS ws
    match twSearch l with
    | some q => q
    | none => (findNumQ l).getD 0

example : parseWeight "500 kg" = 500 := by with_unfolding_all rfl
example : parseWeight "total weight 76.73 kgs" = 7673/100 := by with_unfolding_all rfl
example : parseWeight "" = 0 := by with_unfolding_all rfl
example : parseWeight "heavy" = 0 := by with_unfolding_all rfl

/-!
BillableWeightEngine: `_calculate_volume_weight` (lines 332-388) and
`_calculate_billable_weight` (lines 310-330).
-/

/-- Volume in m³ contributed by one dimension string (lines 362-369):
`re.findall(r'\d+', dim)`, and if at least three numbers are found the first
three are length, width, height in cm, each divided by 100; fewer than three
numbers contribute nothing. -/
def dimVolume (d : String) : ℚ :=
  match digitRuns d.data with
  | l :: w :: h :: _ => ((l : ℚ) / 100) * ((w : ℚ) / 100) * ((h : ℚ) / 100)
  | _ => 0

/-- The engine `_calculate_volume_weight(dimensions, quantity, volume_m3)`
(lines 332-388).  Mirrors the source faithfully, including its slip: in the
string branch (lines 342-348) the parsed number is assigned to the local
`volume_m3` and never to `total_volume_m3`, so a string argument leaves the
total at 0 and the dimension/pallet fallbacks run; only a numeric argument
greater than 0 reaches `total_volume_m3` (line 350). -/
def calcVolumeWeight (dims : List String) (qty : Nat) (vol : VolArg) : ℚ :=
  let total0 : ℚ :=
    match vol with
    | .vnum q => if 0 < q then q else 0
    | _ => 0
  let total1 : ℚ :=
    if total0 ≤ 0 then
      if dims.isEmpty then ((1.2 : ℚ) * 0.8 * 1.2) * qty
      else
        let s := (dims.map dimVolume).sum
        if 0 < s ∧ dims.length = 1 ∧ 1 < qty then s * qty else s
    else total0
  total1 * 333

/-- The engine `_calculate_billable_weight(weight_kg, quantity, dimensions,
volume_m3)` (lines 310-330): the greater of the actual and the volumetric
weight. -/
def calcBillableWeight (weightKg : ℚ) (qty : Nat) (dims : List String)
    (vol : VolArg) : ℚ :=
  max weightKg (calcVolumeWeight dims qty vol)

example : calcVolumeWeight [] 5 .absent = 5 * (144/125) * 333 := by
  with_unfolding_all rfl
example : calcVolumeWeight [] 1 (.vnum (271/20)) = 90243/20 := by
  with_unfolding_all rfl
example : calcVolumeWeight ["120 x 80 x 100 cm"] 3 .absent = 3 * (24/25) * 333 := by
  with_unfolding_all rfl
example : calcBillableWeight 500 5 [] .absent = 95904/50 := by
  with_unfolding_all rfl

/-!
PriceTierLookup: `_find_base_price` (lines 391-436).
-/

/-- Tier selection of lines 396-420: sort all weight tiers ascending, take
the first tier at least the weight, and fall back to the largest tier when
the weight exceeds them all (`none` only for an empty tier list, where the
caller already returned 0). -/
def selectTier (tiers : List ℚ) (w : ℚ) : Option ℚ :=
  match (tiers.insertionSort (· ≤ ·)).find? (fun t => decide (w ≤ t)) with
  | some t => some t
  | none => tiers.max?

/-- The lookup `_find_base_price(weight, zone, service)` (lines 391-436):
select the tier, then return the price of the first row matching (tier, zone,
service) exactly — "P.O.A" propagates, a missing row prices as 0. -/
def findBasePrice (pricing : List PricingRow) (w : ℚ) (zone service : String) :
    PriceVal :=
  if pricing.isEmpty then .val 0
  else
    match selectTier (pricing.map (fun r => r.weightKG)) w with
    | none => .val 0
    | some tier =>
      match pricing.find? (fun r =>
          decide (r.weightKG = tier ∧ r.zone = zone ∧ r.service = service)) with
      | some r => r.priceGBP
      | none => .val 0

example : selectTier [100, 250, 500] 180 = some 250 := by with_unfolding_all rfl
example : selectTier [100, 250, 500] 600 = some 500 := by with_unfolding_all rfl
set_option maxRecDepth 4000 in
example : findBasePrice [⟨1000, "1", "ND", .val 50⟩] 500 "1" "ND" = .val 50 := by
  with_unfolding_all rfl

/-!
SurchargeCalculator: `_get_surcharge_amount` (lines 493-501) and
`_calculate_surcharges` (lines 438-491).
-/

/-- The lookup `_get_surcharge_amount(surcharge_type)`: amount of the first
dataset row whose Surcharge_Type contains the queried name
(case-insensitively); unparsable amounts and missing rows give 0. -/
def getSurchargeAmount (sdata : List SurchargeRow) (ty : String) : ℚ :=
  match sdata.find? (fun r => strContains (lowerS r.surchargeType) (lowerS ty)) with
  | some r => r.amountGBP.getD 0
  | none => 0

/-- Running surcharge accumulator: a total and an itemized breakdown in
insertion order (the Python dict keys are pairwise distinct, so an
association list in insertion order models it exactly). -/
structure Surcharges where
  total : ℚ
  breakdown : List (String × ℚ)
deriving DecidableEq

/-- Add one surcharge line: `surcharges['total'] += amt` followed by
`surcharges['breakdown'][key] = amt`. -/
def addCharge (s : Surcharges) (key : String) (amt : ℚ) : Surcharges :=
  ⟨s.total + amt, s.breakdown ++ [(key, amt)]⟩

/-- Conditionally add one surcharge line (the `if` branches of the source). -/
def addChargeIf (c : Bool) (s : Surcharges) (key : String) (amt : ℚ) : Surcharges :=
  if c then addCharge s key amt else s

/-- The calculator `_calculate_surcharges(info, base_price, zone, quantity)`
(lines 438-491), in source order: airway-bill printing and per-item cargo
labels always; tail-lift, Moffett (quantity ≥ 8), AM/PM, ADR, and London
(zones "5"/"6") conditionally; finally the 8% fuel surcharge, whose breakdown
entry alone is rounded while the unrounded value is added to the total. -/
def calcSurcharges (sdata : List SurchargeRow) (info : Info) (basePrice : ℚ)
    (zone : String) (qty : Nat) : Surcharges :=
  let airway := getSurchargeAmount sdata "Airway Bill Printing"
  let s1 := addCharge ⟨0, []⟩ "Airway Bill Printing" airway
  let cargo := getSurchargeAmount sdata "Cargo Identification Labels" * qty
  let s2 := addCharge s1
    ("Cargo Identification Labels (" ++ toString qty ++ " items)") cargo
  let s3 := addChargeIf info.tailLift s2 "Tail Lift"
    (getSurchargeAmount sdata "Tail-lift")
  let s4 := addChargeIf (info.moffett && decide (8 ≤ qty)) s3 "Moffett Delivery"
    (getSurchargeAmount sdata "Moffat")
  let s5 := addChargeIf
    (info.deliveryTime == some "AM" || info.deliveryTime == some "PM") s4
    (info.deliveryTime.getD "" ++ " Delivery") (getSurchargeAmount sdata "AM or PM")
  let s6 := addChargeIf info.adr s5 "ADR Surcharge" (getSurchargeAmount sdata "ADR")
  let s7 := addChargeIf (zone == "5" || zone == "6") s6 "London Surcharge"
    (getSurchargeAmount sdata "London")
  let fuel := basePrice * (0.08 : ℚ)
  ⟨s7.total + fuel, s7.breakdown ++ [("Fuel Surcharge", round2 fuel)]⟩

/-!
QuoteEngine: `_calculate_pricing` (lines 42-150).  The Python method wraps
its whole body in try/except and returns a tagged dict either way; the
embedding is accordingly a total function into an explicit sum type.
-/

/-- Volume pre-parsing of lines 52-73: a falsy value (null, empty string, the
number 0) becomes `None`; a string is searched for its first number; a
nonzero number is kept. -/
def parseVolumeArg : VolArg → Option ℚ
  | .absent => none
  | .vstr s => if s = "" then none else findNumQ s
  | .vnum q => if q = 0 then none else some q

/-- Repackaging of the pre-parsed volume for `_calculate_billable_weight`,
which receives a float or `None`. -/
def volArgOfOpt : Option ℚ → VolArg
  | none => .absent
  | some q => .vnum q

/-- The table `SERVICE_MAPPING` of config.py applied as
`SERVICE_MAPPING.get(service_type, 'E')`. -/
def serviceMapping (s : String) : String :=
  if s = "E" then "Economy"
  else if s = "ND" then "Next Day"
  else if s = "Next Day" then "ND"
  else if s = "Economy" then "E"
  else "E"

/-- Service resolution of lines 87-91: map the requested code through
`SERVICE_MAPPING` and substitute "ND" whenever the mapped code is not a
substring of the zone's Service_Level cell. -/
def resolveService (serviceLevel : String) (st : Option String) : String :=
  let sc := serviceMapping (st.getD "E")
  if strContains serviceLevel sc then sc else "ND"

/-- The validation gate of lines 46-50 as a predicate: pickup address truthy
and quantity truthy (Python `not x or x == 0` rejects an absent quantity and
the quantity 0). -/
def passesValidation (info : Info) : Bool :=
  !(info.fromAddress == "") && !(info.quantity.getD 0 == 0)

/-- The `quote_breakdown` dict of lines 108-125, field by field in insertion
order; the two display strings "Actual weight" and "Billed for" are carried
as their numeric/text components. -/
structure QuoteBreakdown where
  actualWeightKg : ℚ
  billedWeightKg : ℚ
  billedZone : String
  billedService : String
  collectionDelivery : ℚ
  fuelSurcharge : ℚ
  airwayBillPrinting : ℚ
  cargoLabelsQty : Nat
  cargoLabels : ℚ
  otherSurcharges : ℚ
  total : ℚ
deriving DecidableEq

/-- The `other_details` dict of lines 130-141 (the fixed notes string is
omitted). -/
structure OtherDetails where
  quantity : Nat
  weightKg : ℚ
  serviceType : String
  zone : String
  fromAddress : String
  toAddress : String
  deliveryDate : String
  volumeM3 : Option ℚ
  surchargeDetails : List (String × ℚ)
deriving DecidableEq

/-- Tagged result of `_calculate_pricing`: the error dict or the success dict. -/
inductive QuoteResult where
  | err (reason : String)
  | ok (breakdown : QuoteBreakdown) (details : OtherDetails)
deriving DecidableEq

/-- The engine `_calculate_pricing(info)` (lines 42-150), stage by stage in
source order: validation gate, volume pre-parse, postcode resolution, zone
resolution, service resolution, weight parse, billable weight, base price
(with the P.O.A early return), surcharges, and the assembled breakdown. -/
def calcPricing (t : Tables) (info : Info) : QuoteResult :=
  if info.fromAddress = "" then .err "Missing pickup address"
  else if info.quantity.getD 0 = 0 then .err "Missing or invalid quantity"
  else
    let vol := parseVolumeArg info.volumeM3
    match extractPostcode t.zones info.fromAddress with
    | none => .err ("Could not extract postcode from pickup address: "
        ++ info.fromAddress)
    | some pc =>
      match findZone t.zones pc with
      | none => .err ("Service not available for postcode: " ++ pc)
      | some zs =>
        let sc := resolveService zs.2 info.serviceType
        let w := parseWeight info.totalWeight
        let qty := info.quantity.getD 1
        let bw := calcBillableWeight w qty info.dims (volArgOfOpt vol)
        match findBasePrice t.pricing bw zs.1 sc with
        | .poa => .err "Price on application - please contact us"
        | .val b =>
          let s := calcSurcharges t.surch info b zs.1 qty
          let fuel := round2 (b * (0.08 : ℚ))
          let airway := getSurchargeAmount t.surch "Airway Bill Printing"
          let labels := round2 ((qty : ℚ) * (0.30 : ℚ))
          .ok
            { actualWeightKg := w
              billedWeightKg := round2 bw
              billedZone := zs.1
              billedService := sc
              collectionDelivery := round2 b
              fuelSurcharge := fuel
              airwayBillPrinting := airway
              cargoLabelsQty := qty
              cargoLabels := labels
              otherSurcharges := round2 (s.total - (fuel + airway + labels))
              total := round2 (b + s.total) }
            { quantity := qty
              weightKg := round2 bw
              serviceType := sc
              zone := zs.1
              fromAddress := info.fromAddress
              toAddress := info.toAddress
              deliveryDate := info.deliveryDate
              volumeM3 := vol
              surchargeDetails := s.breakdown }

/-- A concrete record with every flag off, used by the concrete instances in
this file. -/
def infoBase : Info :=
  { fromAddress := "AB1 2CD"
    toAddress := ""
    quantity := some 1
    totalWeight := "500 kg"
    dims := []
    volumeM3 := .absent
    serviceType := some "E"
    deliveryDate := ""
    tailLift := false
    moffett := false
    deliveryTime := none
    labelingRequired := false
    awbPrinting := false
    adr := false }

/-- A concrete table set: one pricing row, one zone row, no surcharge rows. -/
def tablesBase : Tables :=
  { pricing := [⟨1000, "1", "ND", .val 50⟩]
    zones := [⟨"AB", "1", "ND"⟩]
    surch := [] }

set_option maxRecDepth 8000 in
example :
    calcPricing tablesBase infoBase =
      .ok
        { actualWeightKg := 500, billedWeightKg := 500, billedZone := "1",
          billedService := "ND", collectionDelivery := 50, fuelSurcharge := 4,
          airwayBillPrinting := 0, cargoLabelsQty := 1, cargoLabels := 3/10,
          otherSurcharges := -3/10, total := 54 }
        { quantity := 1, weightKg := 500, serviceType := "ND", zone := "1",
          fromAddress := "AB1 2CD", toAddress := "", deliveryDate := "",
          volumeM3 := none,
          surchargeDetails :=
            [("Airway Bill Printing", 0), ("Cargo Identification Labels (1 items)", 0),
             ("Fuel Surcharge", 4)] } := by
  with_unfolding_all rfl

/-!
Helper lemmas.
-/

/-- Appending cannot turn a nonempty string into the empty string. -/
lemma append_left_ne_empty (s t : String) (h : s ≠ "") : s ++ t ≠ "" := by
  intro he
  apply h
  have hd : (s ++ t).data = ([] : List Char) := by rw [he]
  rw [String.data_append] at hd
  rcases List.append_eq_nil.mp hd with ⟨h1, _⟩
  cases s
  simp_all

/-- In a `≤`-sorted rational list, `find?` on the predicate `w ≤ ·` returns a
least element at least `w`. -/
lemma find_ge_spec {l : List ℚ} (hs : l.Sorted (· ≤ ·)) {w t : ℚ}
    (h : l.find? (fun x => decide (w ≤ x)) = some t) :
    w ≤ t ∧ ∀ u ∈ l, w ≤ u → t ≤ u := by
  induction l with
  | nil => simp at h
  | cons a l ih =>
    by_cases hwa : w ≤ a
    · rw [List.find?_cons_of_pos _ (by simpa using hwa)] at h
      obtain rfl : a = t := by simpa using h
      refine ⟨hwa, ?_⟩
      intro u hu _
      rcases List.mem_cons.mp hu with rfl | hu'
      · exact le_refl _
      · exact List.rel_of_sorted_cons hs u hu'
    · rw [List.find?_cons_of_neg _ (by simpa using hwa)] at h
      obtain ⟨h1, h2⟩ := ih hs.of_cons h
      refine ⟨h1, ?_⟩
      intro u hu hwu
      rcases List.mem_cons.mp hu with rfl | hu'
      · exact absurd hwu hwa
      · exact h2 u hu' hwu

/-- When some element of the list is at least `w`, `find?` on `w ≤ ·`
succeeds. -/
lemma find_ge_exists {l : List ℚ} {w u : ℚ} (hu : u ∈ l) (hwu : w ≤ u) :
    ∃ t, l.find? (fun x => decide (w ≤ x)) = some t := by
  cases h : l.find? (fun x => decide (w ≤ x)) with
  | some t => exact ⟨t, rfl⟩
  | none =>
    have := List.find?_eq_none.mp h u hu
    simp [hwu] at this

/-- Folding `max` over rationals yields a member of the extended list that
dominates it. -/
lemma foldl_max_spec (l : List ℚ) (a : ℚ) :
    (a ≤ l.foldl max a) ∧ (l.foldl max a = a ∨ l.foldl max a ∈ l) ∧
      ∀ u ∈ l, u ≤ l.foldl max a := by
  induction l generalizing a with
  | nil => simp
  | cons b l ih =>
    obtain ⟨h1, h2, h3⟩ := ih (max a b)
    rw [List.foldl_cons]
    refine ⟨le_trans (le_max_left a b) h1, ?_, ?_⟩
    · rcases h2 with h | h
      · rcases max_choice a b with hm | hm
        · exact Or.inl (by rw [h]; exact hm)
        · exact Or.inr (by rw [h, hm]; exact List.mem_cons_self b l)
      · exact Or.inr (List.mem_cons_of_mem b h)
    · intro u hu
      rcases List.mem_cons.mp hu with rfl | hu'
      · exact le_trans (le_max_right a u) h1
      · exact h3 u hu'

/-- A nonempty rational list has a `max?` that is a greatest member. -/
lemma max?_spec {l : List ℚ} (h : l ≠ []) :
    ∃ m, l.max? = some m ∧ m ∈ l ∧ ∀ u ∈ l, u ≤ m := by
  cases l with
  | nil => exact absurd rfl h
  | cons a l =>
    obtain ⟨_, h2, h3⟩ := foldl_max_spec l a
    refine ⟨l.foldl max a, rfl, ?_, ?_⟩
    · rcases h2 with h | h
      · rw [h]; exact List.mem_cons_self a l
      · exact List.mem_cons_of_mem a h
    · intro u hu
      rcases List.mem_cons.mp hu with rfl | hu'
      · exact (foldl_max_spec l u).1
      · exact h3 u hu'

/-- Rounding at two decimals fixes an integer number of hundredths. -/
lemma rndHalfEven_intCast (n : ℤ) : rndHalfEven (n : ℚ) = n := by
  unfold rndHalfEven
  rw [Int.floor_intCast]
  norm_num

/-- The hardcoded label line `round(quantity * 0.30, 2)` is exact: a natural
multiple of 0.30 has at most two decimals. -/
lemma round2_cargo_exact (q : Nat) :
    round2 ((q : ℚ) * (0.30 : ℚ)) = (q : ℚ) * (0.30 : ℚ) := by
  unfold round2
  have h : ((q : ℚ) * (0.30 : ℚ)) * 100 = ((30 * (q : ℤ) : ℤ) : ℚ) := by
    push_cast
    ring
  rw [h, rndHalfEven_intCast]
  push_cast
  ring

/-- `addCharge` preserves "total = sum of breakdown amounts". -/
lemma addCharge_sum (s : Surcharges) (k : String) (a : ℚ)
    (h : s.total = (s.breakdown.map Prod.snd).sum) :
    (addCharge s k a).total = ((addCharge s k a).breakdown.map Prod.snd).sum := by
  simp [addCharge, h]

/-- `addChargeIf` preserves "total = sum of breakdown amounts". -/
lemma addChargeIf_sum (c : Bool) (s : Surcharges) (k : String) (a : ℚ)
    (h : s.total = (s.breakdown.map Prod.snd).sum) :
    (addChargeIf c s k a).total =
      ((addChargeIf c s k a).breakdown.map Prod.snd).sum := by
  cases c with
  | false => simpa [addChargeIf] using h
  | true => simpa [addChargeIf] using addCharge_sum s k a h

/-- Shape of `_calculate_surcharges`: everything before the fuel step
satisfies "total = sum of the stored lines", and the fuel step adds the
unrounded fuel to the total while storing the rounded fuel line. -/
lemma calcSurcharges_split (sdata : List SurchargeRow) (info : Info) (b : ℚ)
    (zone : String) (qty : Nat) :
    ∃ s : Surcharges, s.total = (s.breakdown.map Prod.snd).sum ∧
      calcSurcharges sdata info b zone qty =
        ⟨s.total + b * (0.08 : ℚ),
         s.breakdown ++ [("Fuel Surcharge", round2 (b * (0.08 : ℚ)))]⟩ := by
  refine ⟨_, ?_, rfl⟩
  apply addChargeIf_sum
  apply addChargeIf_sum
  apply addChargeIf_sum
  apply addChargeIf_sum
  apply addChargeIf_sum
  apply addCharge_sum
  apply addCharge_sum
  simp

/-- When the mapped requested service code is not offered in the zone's
Service_Level cell, lines 90-91 substitute "ND". -/
lemma resolveService_nd (lv : String) (st : Option String)
    (h : strContains lv (serviceMapping (st.getD "E")) = false) :
    resolveService lv st = "ND" := by
  unfold resolveService
  simp [h]

/-- Reduction of `_calculate_pricing` along its success path: once the gate,
postcode resolution, zone resolution and base-price lookup are fixed, the
returned breakdown and details are exactly these records. -/
lemma calcPricing_ok_fields (t : Tables) (info : Info) (q : Nat) (pc : String)
    (z lv : String) (b : ℚ)
    (h1 : info.fromAddress ≠ "")
    (h2 : info.quantity = some q) (hq : q ≠ 0)
    (h3 : extractPostcode t.zones info.fromAddress = some pc)
    (h4 : findZone t.zones pc = some (z, lv))
    (h6 : findBasePrice t.pricing
        (calcBillableWeight (parseWeight info.totalWeight) q info.dims
          (volArgOfOpt (parseVolumeArg info.volumeM3))) z
        (resolveService lv info.serviceType) = .val b) :
    calcPricing t info = .ok
      { actualWeightKg := parseWeight info.totalWeight
        billedWeightKg := round2 (calcBillableWeight (parseWeight info.totalWeight)
          q info.dims (volArgOfOpt (parseVolumeArg info.volumeM3)))
        billedZone := z
        billedService := resolveService lv info.serviceType
        collectionDelivery := round2 b
        fuelSurcharge := round2 (b * (0.08 : ℚ))
        airwayBillPrinting := getSurchargeAmount t.surch "Airway Bill Printing"
        cargoLabelsQty := q
        cargoLabels := round2 ((q : ℚ) * (0.30 : ℚ))
        otherSurcharges := round2 ((calcSurcharges t.surch info b z q).total
          - (round2 (b * (0.08 : ℚ))
             + getSurchargeAmount t.surch "Airway Bill Printing"
             + round2 ((q : ℚ) * (0.30 : ℚ))))
        total := round2 (b + (calcSurcharges t.surch info b z q).total) }
      { quantity := q
        weightKg := round2 (calcBillableWeight (parseWeight info.totalWeight)
          q info.dims (volArgOfOpt (parseVolumeArg info.volumeM3)))
        serviceType := resolveService lv info.serviceType
        zone := z
        fromAddress := info.fromAddress
        toAddress := info.toAddress
        deliveryDate := info.deliveryDate
        volumeM3 := parseVolumeArg info.volumeM3
        surchargeDetails := (calcSurcharges t.surch info b z q).breakdown } := by
  unfold calcPricing
  rw [if_neg h1, if_neg (by rw [h2]; simpa using hq)]
  simp only [h2, h3, h4, h6, Option.getD_some]

/-!
Claim theorems.
-/

/-- C1: for every call to `_calculate_billable_weight` — any actual weight,
quantity, dimension-string list and volume argument — the result equals
`max(actual, volumetric)` and is therefore at least the actual weight; the
volumetric comparison never reduces the billed weight below actual. -/
theorem C1_billable_is_max_and_ge_actual (w : ℚ) (qty : Nat)
    (dims : List String) (vol : VolArg) :
    calcBillableWeight w qty dims vol = max w (calcVolumeWeight dims qty vol) ∧
    w ≤ calcBillableWeight w qty dims vol :=
  ⟨rfl, le_max_left _ _⟩

/-- C2 counterexample: with an empty surcharge dataset, base price 1.10 and
quantity 1, the itemized lines of `_calculate_surcharges` round (to 2dp) and
sum to 0.09, while the returned total is the unrounded 0.088, so the claimed
identity "total = sum of independently rounded line items" fails. -/
theorem C2_counterexample_rounded_sum_ne_total :
    ((calcSurcharges [] infoBase (11/10) "1" 1).breakdown.map
        (fun p => round2 p.2)).sum = 9/100 ∧
    (calcSurcharges [] infoBase (11/10) "1" 1).total = 11/125 ∧
    (calcSurcharges [] infoBase (11/10) "1" 1).total ≠
      ((calcSurcharges [] infoBase (11/10) "1" 1).breakdown.map
        (fun p => round2 p.2)).sum := by
  refine ⟨?_, ?_, ?_⟩
  · with_unfolding_all rfl
  · with_unfolding_all rfl
  · with_unfolding_all exact of_decide_eq_true rfl

/-- C2 amended: `_calculate_surcharges` accumulates line amounts into the
total unrounded; only the Fuel Surcharge breakdown entry is stored rounded to
2dp, so the total equals the sum of the stored breakdown lines with the
rounded fuel entry replaced by the unrounded fuel amount — line items and
total reconcile exactly only when the fuel amount is already a 2dp value. -/
theorem C2_amended_total_is_unrounded_sum (sdata : List SurchargeRow)
    (info : Info) (b : ℚ) (zone : String) (qty : Nat) :
    (calcSurcharges sdata info b zone qty).total =
      ((calcSurcharges sdata info b zone qty).breakdown.map Prod.snd).sum
        - round2 (b * (0.08 : ℚ)) + b * (0.08 : ℚ) := by
  obtain ⟨s, hinv, heq⟩ := calcSurcharges_split sdata info b zone qty
  rw [heq]
  simp only [List.map_append, List.sum_append, List.map_cons, List.map_nil,
    List.sum_cons, List.sum_nil]
  rw [hinv]
  ring

/-- C3: the source's own comment and dead in-range branch show ranged
entries like "GU26-35" are meant to match the whole inclusive range, but
`zone_prefix.split('-')[1]` keeps only the upper endpoint, so with the single
entry "GU26-35" the postcodes GU26 and GU30 find no zone while GU35 does —
the range matches only at its upper endpoint. -/
theorem C3_ranged_entry_matches_only_upper_endpoint :
    findZone [⟨"GU26-35", "3", "ND, E"⟩] "GU26" = none ∧
    findZone [⟨"GU26-35", "3", "ND, E"⟩] "GU30" = none ∧
    findZone [⟨"GU26-35", "3", "ND, E"⟩] "GU35" = some ("3", "ND, E") := by
  refine ⟨?_, ?_, ?_⟩ <;> decide

/-- C5: `_calculate_volume_weight` drops an explicit volume passed as a
string — the parsed number is never stored into the running total (source
line 346) — so the string "13.550 M3" with no dimensions and quantity 1 falls
back to the standard-pallet estimate 383.616 kg instead of the claimed
13.550 × 333 = 4512.15 kg, although the same volume passed as the number
13.550 does yield 4512.15 kg and the string parses to that very number. -/
theorem C5_explicit_string_volume_ignored :
    calcVolumeWeight [] 1 (.vstr "13.550 M3") = 47952/125 ∧
    calcVolumeWeight [] 1 (.vnum (271/20)) = 90243/20 ∧
    findNumQ "13.550 M3" = some (271/20) ∧
    (47952/125 : ℚ) ≠ 90243/20 := by
  refine ⟨?_, ?_, ?_, ?_⟩
  · with_unfolding_all rfl
  · with_unfolding_all rfl
  · with_unfolding_all rfl
  · norm_num

set_option maxRecDepth 16000 in
/-- C4: the tier-selection step of `_find_base_price` picks, among the weight
tiers present in the rate table, the least tier at least the billable weight,
and when the weight exceeds every tier it picks the largest tier instead of
failing; in particular with tiers [100, 250, 500], weight 180 selects 250 and
weight 600 selects 500, and `_find_base_price` then prices those rows. -/
theorem C4_tier_rounds_up_else_largest (ts : List ℚ) (w : ℚ) (h : ts ≠ []) :
    (∃ tier, selectTier ts w = some tier ∧ tier ∈ ts ∧
      (∀ u ∈ ts, w ≤ u → w ≤ tier ∧ tier ≤ u) ∧
      ((∀ u ∈ ts, u < w) → ∀ u ∈ ts, u ≤ tier)) ∧
    selectTier [100, 250, 500] 180 = some 250 ∧
    selectTier [100, 250, 500] 600 = some 500 ∧
    findBasePrice [⟨100, "1", "ND", .val 10⟩, ⟨250, "1", "ND", .val 20⟩,
      ⟨500, "1", "ND", .val 30⟩] 180 "1" "ND" = .val 20 ∧
    findBasePrice [⟨100, "1", "ND", .val 10⟩, ⟨250, "1", "ND", .val 20⟩,
      ⟨500, "1", "ND", .val 30⟩] 600 "1" "ND" = .val 30 := by
  refine ⟨?_, ?_, ?_, ?_, ?_⟩
  · have hperm := List.perm_insertionSort (fun a b : ℚ => a ≤ b) ts
    cases hf : (ts.insertionSort (· ≤ ·)).find? (fun t => decide (w ≤ t)) with
    | some tier =>
      have hsorted := List.sorted_insertionSort (fun a b : ℚ => a ≤ b) ts
      obtain ⟨hwt, hmin⟩ := find_ge_spec hsorted hf
      have hmem : tier ∈ ts := hperm.mem_iff.mp (List.mem_of_find?_eq_some hf)
      refine ⟨tier, by simp only [selectTier, hf], hmem, ?_, ?_⟩
      · intro u hu hwu
        exact ⟨hwt, hmin u (hperm.mem_iff.mpr hu) hwu⟩
      · intro hall u hu
        exact absurd hwt (not_le.mpr (hall tier hmem))
    | none =>
      obtain ⟨m, hm, hmem, hmax⟩ := max?_spec h
      refine ⟨m, ?_, hmem, ?_, fun _ => hmax⟩
      · simp only [selectTier, hf, hm]
      · intro u hu hwu
        have hnone := List.find?_eq_none.mp hf u (hperm.mem_iff.mpr hu)
        simp [hwu] at hnone
  · with_unfolding_all rfl
  · with_unfolding_all rfl
  · with_unfolding_all rfl
  · with_unfolding_all rfl

/-- C4 witness: instantiation of the tier-selection theorem at the one-tier
table [100] and weight 50, with the nonemptiness hypothesis discharged. -/
theorem C4_tier_rounds_up_witness :
    (∃ tier, selectTier [(100 : ℚ)] 50 = some tier ∧ tier ∈ [(100 : ℚ)] ∧
      (∀ u ∈ [(100 : ℚ)], (50 : ℚ) ≤ u → (50 : ℚ) ≤ tier ∧ tier ≤ u) ∧
      ((∀ u ∈ [(100 : ℚ)], u < 50) → ∀ u ∈ [(100 : ℚ)], u ≤ tier)) ∧
    selectTier [100, 250, 500] 180 = some 250 ∧
    selectTier [100, 250, 500] 600 = some 500 ∧
    findBasePrice [⟨100, "1", "ND", .val 10⟩, ⟨250, "1", "ND", .val 20⟩,
      ⟨500, "1", "ND", .val 30⟩] 180 "1" "ND" = .val 20 ∧
    findBasePrice [⟨100, "1", "ND", .val 10⟩, ⟨250, "1", "ND", .val 20⟩,
      ⟨500, "1", "ND", .val 30⟩] 600 "1" "ND" = .val 30 :=
  C4_tier_rounds_up_else_largest [100] 50 (by simp)

/-- C6: whenever the postcode resolves to a zone whose Service_Level cell
does not contain the mapped requested service code, `_calculate_pricing`
silently substitutes "ND" and (when a priced row exists) still produces a
priced quote billed at "ND" — there is no failure branch for an unavailable
service code. -/
theorem C6_unavailable_service_defaults_to_nd (t : Tables) (info : Info)
    (q : Nat) (pc z lv : String) (b : ℚ)
    (h1 : info.fromAddress ≠ "")
    (h2 : info.quantity = some q) (hq : q ≠ 0)
    (h3 : extractPostcode t.zones info.fromAddress = some pc)
    (h4 : findZone t.zones pc = some (z, lv))
    (h5 : strContains lv (serviceMapping (info.serviceType.getD "E")) = false)
    (h6 : findBasePrice t.pricing
        (calcBillableWeight (parseWeight info.totalWeight) q info.dims
          (volArgOfOpt (parseVolumeArg info.volumeM3))) z "ND" = .val b) :
    ∃ qb od, calcPricing t info = .ok qb od ∧
      qb.billedService = "ND" ∧ od.serviceType = "ND" := by
  have hrs := resolveService_nd lv info.serviceType h5
  refine ⟨_, _, calcPricing_ok_fields t info q pc z lv b h1 h2 hq h3 h4
    (by rw [hrs]; exact h6), ?_, ?_⟩
  · simpa using hrs
  · simpa using hrs

set_option maxRecDepth 16000 in
/-- C6 witness: the concrete table set offers only "ND" in zone 1 while the
record requests "E"; the engine returns a priced quote billed at "ND". -/
theorem C6_unavailable_service_witness :
    ∃ qb od, calcPricing tablesBase infoBase = .ok qb od ∧
      qb.billedService = "ND" ∧ od.serviceType = "ND" :=
  C6_unavailable_service_defaults_to_nd tablesBase infoBase 1 "AB1 2CD" "1" "ND" 50
    (by decide) (by decide) (by decide) (by decide) (by decide) (by decide)
    (by with_unfolding_all rfl)

/-- C7: for every table set and every input record, `_calculate_pricing`
returns an explicit tagged result — a failure with a nonempty human-readable
reason or a success carrying the breakdown and details — and, being a total
function into this sum type, never propagates an exception. -/
theorem C7_always_tagged_result (t : Tables) (info : Info) :
    (∃ r, calcPricing t info = .err r ∧ r ≠ "") ∨
    (∃ qb od, calcPricing t info = .ok qb od) := by
  unfold calcPricing
  split
  · exact Or.inl ⟨_, rfl, by decide⟩
  split
  · exact Or.inl ⟨_, rfl, by decide⟩
  split
  · exact Or.inl ⟨_, rfl, append_left_ne_empty _ _ (by decide)⟩
  split
  · exact Or.inl ⟨_, rfl, append_left_ne_empty _ _ (by decide)⟩
  dsimp only
  split
  · exact Or.inl ⟨_, rfl, by decide⟩
  · exact Or.inr ⟨_, _, rfl⟩

/-- C8: a record passes the validation gate of lines 46-50 exactly when its
quantity is a present nonzero natural, hence quantity ≥ 1 after the gate;
conversely any record whose quantity is absent or 0 is rejected immediately
with one of the two labeled validation failures, before any pricing step. -/
theorem C8_gate_forces_quantity_ge_one (t : Tables) (info : Info) :
    (passesValidation info = true → ∃ q, info.quantity = some q ∧ 1 ≤ q) ∧
    ((info.quantity = none ∨ info.quantity = some 0) →
      calcPricing t info = .err "Missing pickup address" ∨
      calcPricing t info = .err "Missing or invalid quantity") := by
  constructor
  · intro hp
    unfold passesValidation at hp
    cases hinfo : info.quantity with
    | none => rw [hinfo] at hp; simp at hp
    | some q =>
      rw [hinfo] at hp
      simp at hp
      exact ⟨q, rfl, by omega⟩
  · intro hq
    by_cases ha : info.fromAddress = ""
    · left
      unfold calcPricing
      rw [if_pos ha]
    · right
      unfold calcPricing
      rw [if_neg ha,
        if_pos (show info.quantity.getD 0 = 0 by rcases hq with h | h <;> simp [h])]

/-- C8 witness: a record with quantity 1 passes the gate with quantity ≥ 1,
and the same record with its quantity removed is rejected by the gate. -/
theorem C8_gate_witness :
    (∃ q, infoBase.quantity = some q ∧ 1 ≤ q) ∧
    (calcPricing tablesBase { infoBase with quantity := none } =
        .err "Missing pickup address" ∨
      calcPricing tablesBase { infoBase with quantity := none } =
        .err "Missing or invalid quantity") :=
  ⟨(C8_gate_forces_quantity_ge_one tablesBase infoBase).1 (by decide),
   (C8_gate_forces_quantity_ge_one tablesBase { infoBase with quantity := none }).2
     (Or.inl rfl)⟩

/-- C9 counterexample: the trimmed upper-cased address "ZZ9" is a bare
postcode-prefix pattern and contains no full postcode, yet with a zone table
whose only prefix is "AB" (which neither starts "ZZ9" nor is started by it)
`_extract_postcode` returns absent instead of the claimed "ZZ9 1AB" — the
bare-prefix fallback only fires when some zone row relates to the prefix. -/
theorem C9_counterexample_bare_prefix_can_be_absent :
    isBareP (stripS (upperS "ZZ9")) = true ∧
    findFullPc "ZZ9" = none ∧
    extractPostcode [⟨"AB", "1", "ND"⟩] "ZZ9" = none := by
  refine ⟨?_, ?_, ?_⟩ <;> decide

/-- C9 amended: for an address that trims and uppercases to a bare
postcode-prefix pattern and contains no full postcode, `_extract_postcode`
returns a postcode — the first matching sample-table entry, else the prefix
with the fixed " 1AB" filler — provided additionally that some zone-table row
relates to the prefix (the address starts with the row prefix's first token
or the row prefix starts with the address); with no related row the resolver
falls through to the airport heuristics and may return absent.  (The
hypothesis on nonempty prefix cells matches Python, which would raise on a
blank `Postcode_Prefix` cell instead of scanning past it.) -/
theorem C9_amended_bare_prefix_needs_related_row (zones : List ZoneRow)
    (address : String)
    (hne : address ≠ "")
    (hfull : findFullPc address = none)
    (hbare : isBareP (stripS (upperS address)) = true)
    (hclean : ∀ r ∈ zones, stripS r.pfx ≠ "")
    (hrow : (zones.find? (bareRowMatch (stripS (upperS address)))).isSome = true) :
    extractPostcode zones address = some (samplePick (stripS (upperS address))) := by
  obtain ⟨r, hr⟩ := Option.isSome_iff_exists.mp hrow
  unfold extractPostcode
  rw [if_neg hne]
  simp only [hfull, hbare, hr, if_true]

/-- C9 witness: the bare prefix "AB1" with a related zone row resolves to the
sample postcode of the "AB" entry of the fixed table. -/
theorem C9_amended_bare_prefix_witness :
    extractPostcode [⟨"AB", "1", "ND"⟩] "AB1" = some "AB1 1AB" := by
  have h := C9_amended_bare_prefix_needs_related_row [⟨"AB", "1", "ND"⟩] "AB1"
    (by decide) (by decide) (by decide) (by decide) (by decide)
  rw [h]
  decide

/-- Breakdown effect of `addChargeIf`: append the line when the condition
holds. -/
lemma addChargeIf_breakdown (c : Bool) (s : Surcharges) (k : String) (a : ℚ) :
    (addChargeIf c s k a).breakdown = s.breakdown ++ (if c then [(k, a)] else []) := by
  cases c <;> simp [addChargeIf, addCharge]

/-- Index-1 entry of the surcharge breakdown is always the cargo-labels line,
charged at the dataset rate times the quantity. -/
lemma calcSurcharges_breakdown_cargo (sdata : List SurchargeRow) (info : Info)
    (b : ℚ) (zone : String) (qty : Nat) :
    (calcSurcharges sdata info b zone qty).breakdown.get? 1 =
      some ("Cargo Identification Labels (" ++ toString qty ++ " items)",
        getSurchargeAmount sdata "Cargo Identification Labels" * qty) := by
  unfold calcSurcharges
  simp only [addChargeIf_breakdown, addCharge, List.append_assoc,
    List.cons_append, List.nil_append]
  rfl

/-- C10: the quote breakdown's labeling line is the hardcoded
`round(quantity * 0.30, 2)`, while the amount actually accumulated into the
surcharge total (and hence into the "Other surcharges" line computed by
subtracting the three displayed lines from that total) is the dataset's Cargo
Identification Labels rate times quantity; for quantity ≥ 1 the two agree
exactly when the dataset rate is 0.30. -/
theorem C10_labels_line_vs_dataset_rate (t : Tables) (info : Info)
    (q : Nat) (pc z lv : String) (b : ℚ)
    (h1 : info.fromAddress ≠ "")
    (h2 : info.quantity = some q) (hq : 1 ≤ q)
    (h3 : extractPostcode t.zones info.fromAddress = some pc)
    (h4 : findZone t.zones pc = some (z, lv))
    (h6 : findBasePrice t.pricing
        (calcBillableWeight (parseWeight info.totalWeight) q info.dims
          (volArgOfOpt (parseVolumeArg info.volumeM3))) z
        (resolveService lv info.serviceType) = .val b) :
    ∃ qb od, calcPricing t info = .ok qb od ∧
      qb.cargoLabelsQty = q ∧
      qb.cargoLabels = round2 ((q : ℚ) * (0.30 : ℚ)) ∧
      (calcSurcharges t.surch info b z q).breakdown.get? 1 =
        some ("Cargo Identification Labels (" ++ toString q ++ " items)",
          getSurchargeAmount t.surch "Cargo Identification Labels" * q) ∧
      qb.otherSurcharges = round2 ((calcSurcharges t.surch info b z q).total
        - (round2 (b * (0.08 : ℚ))
           + getSurchargeAmount t.surch "Airway Bill Printing"
           + round2 ((q : ℚ) * (0.30 : ℚ)))) ∧
      (qb.cargoLabels = getSurchargeAmount t.surch "Cargo Identification Labels" * q
        ↔ getSurchargeAmount t.surch "Cargo Identification Labels" = (0.30 : ℚ)) := by
  refine ⟨_, _, calcPricing_ok_fields t info q pc z lv b h1 h2 (by omega) h3 h4 h6,
    rfl, rfl, calcSurcharges_breakdown_cargo t.surch info b z q, rfl, ?_⟩
  show round2 ((q : ℚ) * (0.30 : ℚ)) =
      getSurchargeAmount t.surch "Cargo Identification Labels" * q ↔
    getSurchargeAmount t.surch "Cargo Identification Labels" = (0.30 : ℚ)
  rw [round2_cargo_exact]
  constructor
  · intro h
    have hq0 : (q : ℚ) ≠ 0 := Nat.cast_ne_zero.mpr (by omega)
    apply mul_right_cancel₀ hq0
    rw [← h]
    ring
  · intro h
    rw [h]
    ring

set_option maxRecDepth 16000 in
/-- C10 witness: with the dataset charging 0.25 per label, the engine still
displays the hardcoded 0.30 line while the total carries 0.25 × quantity, and
the two disagree exactly because the rate is not 0.30. -/
theorem C10_labels_line_witness :
    ∃ qb od, calcPricing
        { pricing := [⟨1000, "1", "ND", .val 50⟩]
          zones := [⟨"AB", "1", "ND"⟩]
          surch := [⟨"Cargo Identification Labels", some (1/4)⟩] } infoBase =
        .ok qb od ∧
      qb.cargoLabelsQty = 1 ∧
      qb.cargoLabels = round2 ((1 : ℚ) * (0.30 : ℚ)) ∧
      (calcSurcharges [⟨"Cargo Identification Labels", some (1/4)⟩] infoBase 50
          "1" 1).breakdown.get? 1 =
        some ("Cargo Identification Labels (" ++ toString 1 ++ " items)",
          getSurchargeAmount [⟨"Cargo Identification Labels", some (1/4)⟩]
            "Cargo Identification Labels" * 1) ∧
      qb.otherSurcharges = round2 ((calcSurcharges
          [⟨"Cargo Identification Labels", some (1/4)⟩] infoBase 50 "1" 1).total
        - (round2 ((50 : ℚ) * (0.08 : ℚ))
           + getSurchargeAmount [⟨"Cargo Identification Labels", some (1/4)⟩]
               "Airway Bill Printing"
           + round2 ((1 : ℚ) * (0.30 : ℚ)))) ∧
      (qb.cargoLabels = getSurchargeAmount
          [⟨"Cargo Identification Labels", some (1/4)⟩]
          "Cargo Identification Labels" * 1
        ↔ getSurchargeAmount [⟨"Cargo Identification Labels", some (1/4)⟩]
            "Cargo Identification Labels" = (0.30 : ℚ)) := by
  have h := C10_labels_line_vs_dataset_rate
    { pricing := [⟨1000, "1", "ND", .val 50⟩]
      zones := [⟨"AB", "1", "ND"⟩]
      surch := [⟨"Cargo Identification Labels", some (1/4)⟩] } infoBase
    1 "AB1 2CD" "1" "ND" 50
    (by decide) (by decide) (by decide) (by decide) (by decide)
    (by with_unfolding_all rfl)
  exact h
